import Mathlib

set_option linter.unusedVariables false

/-!
Shallow embedding of the authentication module of the commerce repository:
the signup / OTP-verification / login / forgot-password / reset-password
HTTP route handlers and the settings (change-password, profile, preferences)
route handlers, together with the User and Otp document collections they
read and write.

Conventions of the embedding:
  - The document database is a pair of lists (users, otps) with fresh-id
    counters; findOne is List.find? (first match), findOneAndUpdate updates
    the first match, deleteOne by id erases the first record with that id
    (List.eraseP), and create appends.  Schema-level input validation done
    by the external document mapper (email format, lowercasing) is out of
    scope per the specification, which treats the mapper as an external
    collaborator; note that the minlength validator on the password field
    never fires because the stored value is the bcrypt hash.
  - Times are naturals (milliseconds since epoch); every handler receives
    the current time explicitly.
  - The external bcrypt library is modelled as an injective one-way
    function: hashing prefixes a salt marker, comparison re-hashes and
    compares.
  - Each handler returns the JSON response it would send (status, message
    and payload fields) together with the database state after the call.
-/

/-- User preferences subdocument, defaults as in the User schema. -/
structure Preferences where
  notificationsEnabled : Bool
  darkMode : Bool
  newsletterSubscribed : Bool
deriving Repr, DecidableEq

/-- Schema defaults for preferences. -/
def defaultPreferences : Preferences :=
  { notificationsEnabled := true, darkMode := false, newsletterSubscribed := false }

/-- Persisted user record; the password field stores the bcrypt hash. -/
structure User where
  id : Nat
  name : String
  email : String
  password : String
  role : String
  isVerified : Bool
  image : String
  phoneNumber : String
  bio : String
  preferences : Preferences
deriving Repr, DecidableEq

/-- Purpose tag of a one-time code (the Otp schema's type field). -/
inductive OtpType where
  | verification
  | reset
deriving Repr, DecidableEq

/-- Persisted one-time-code record (Otp schema). -/
structure Otp where
  id : Nat
  email : String
  code : String
  type : OtpType
  expiresAt : Nat
deriving Repr, DecidableEq

/-- The database state: the User and Otp collections plus fresh-id counters. -/
structure DB where
  users : List User
  otps : List Otp
  nextUserId : Nat
  nextOtpId : Nat
deriving Repr, DecidableEq

/-- The empty database a fresh deployment starts from. -/
def initDB : DB := { users := [], otps := [], nextUserId := 0, nextOtpId := 0 }

/-- Payload subset of a user returned by the login route. -/
structure PublicUser where
  id : Nat
  name : String
  email : String
  role : String
deriving Repr, DecidableEq

/-- Session token minted by the login route: a signed JWT carrying userId and
role, expiring 24 hours after issue. -/
structure SessionToken where
  userId : Nat
  role : String
  expiresAt : Nat
deriving Repr, DecidableEq

/-- Decoded session produced by getSession from a valid token cookie. -/
structure Session where
  userId : Nat
  role : String
deriving Repr, DecidableEq

/-- JSON response of a route handler: HTTP status, message, and the optional
payload fields the various handlers attach. -/
structure ApiResponse where
  status : Nat
  message : String
  userId : Option Nat := none
  user : Option PublicUser := none
  token : Option SessionToken := none
  unverified : Bool := false
  preferences : Option Preferences := none
deriving Repr, DecidableEq

/-- Model of the external bcrypt library's hash: an injective one-way
function (salted digest, cost 10). -/
def bcryptHash (plain : String) : String := "$2b$10$" ++ plain

/-- Model of bcrypt.compare: re-hash the plaintext and compare digests. -/
def bcryptCompare (plain digest : String) : Bool := bcryptHash plain == digest

/-- findOne on the User collection by email (first match). -/
def findUserByEmail (db : DB) (email : String) : Option User :=
  db.users.find? (fun u => u.email == email)

/-- findOne on the User collection by id (first match). -/
def findUserById (db : DB) (uid : Nat) : Option User :=
  db.users.find? (fun u => u.id == uid)

/-- Filter used by the OTP lookups: exact match on email, code and type. -/
def otpMatch (email code : String) (t : OtpType) (o : Otp) : Bool :=
  o.email == email && o.code == code && o.type == t

/-- findOne on the Otp collection by email, code and type (first match). -/
def findOtp (db : DB) (email code : String) (t : OtpType) : Option Otp :=
  db.otps.find? (otpMatch email code t)

/-- findOneAndUpdate: rewrite the first list element satisfying the filter. -/
def updateFirst (p : α → Bool) (f : α → α) : List α → List α
  | [] => []
  | x :: xs => if p x then f x :: xs else x :: updateFirst p f xs

/-- deleteOne by id on the Otp collection: erase the first record with the
given id. -/
def deleteOtpById (otps : List Otp) (oid : Nat) : List Otp :=
  otps.eraseP (fun o => o.id == oid)

/-- The role actually stored by signup: the JavaScript expression
role or-else the string user, which defaults on any falsy value, so both a
missing role field and an empty-string role become the string user. -/
def roleOrDefault (role : Option String) : String :=
  match role with
  | none => "user"
  | some r => if r == "" then "user" else r

/-- Signup route handler (app/api/auth/signup/route.ts): duplicate-email
check, bcrypt-hash the password, create the user with isVerified false,
create a verification OTP with the static development code and a 10-minute
expiry, return 201 with the new user id.  A role outside the schema enum
makes User.create throw, caught as a 500 with no writes performed. -/
def signup (db : DB) (now : Nat) (name email password : String)
    (role : Option String) : ApiResponse × DB :=
  match findUserByEmail db email with
  | some _ =>
    ({ status := 400, message := "A user with this email already exists" }, db)
  | none =>
    let r := roleOrDefault role
    if r == "user" || r == "admin" then
      let newUser : User :=
        { id := db.nextUserId, name := name, email := email,
          password := bcryptHash password, role := r, isVerified := false,
          image := "", phoneNumber := "", bio := "",
          preferences := defaultPreferences }
      let newOtp : Otp :=
        { id := db.nextOtpId, email := email, code := "123456",
          type := OtpType.verification, expiresAt := now + 10 * 60 * 1000 }
      ({ status := 201,
         message := "User registered successfully. Please verify your email.",
         userId := some newUser.id },
       { db with users := db.users ++ [newUser], otps := db.otps ++ [newOtp],
                 nextUserId := db.nextUserId + 1, nextOtpId := db.nextOtpId + 1 })
    else
      ({ status := 500, message := "Server error during registration" }, db)

/-- Verify-OTP route handler: look up the verification code; 400 if absent;
if present but past its expiry, delete it and answer 400 expired; otherwise
mark the user verified and delete the consumed code. -/
def verifyOtp (db : DB) (now : Nat) (email code : String) : ApiResponse × DB :=
  match findOtp db email code OtpType.verification with
  | none =>
    ({ status := 400, message := "Invalid or expired verification code" }, db)
  | some otpRecord =>
    if now > otpRecord.expiresAt then
      ({ status := 400, message := "Verification code has expired" },
       { db with otps := deleteOtpById db.otps otpRecord.id })
    else
      let db1 := { db with
        users := updateFirst (fun u => u.email == email)
                   (fun u => { u with isVerified := true }) db.users }
      ({ status := 200,
         message := "Account verified successfully. You can now login." },
       { db1 with otps := deleteOtpById db1.otps otpRecord.id })

/-- Login route handler: find the user by email (401 if none, without saying
which of email or password is wrong), block unverified users with a 403
before the password is compared, compare the bcrypt hash (401 on mismatch),
then mint a 24-hour JWT and answer 200 with the public user payload.  The
database is never written. -/
def login (db : DB) (now : Nat) (email password : String) : ApiResponse × DB :=
  match findUserByEmail db email with
  | none =>
    ({ status := 401, message := "Invalid email or password" }, db)
  | some user =>
    if !user.isVerified then
      ({ status := 403, message := "Please verify your email before logging in",
         unverified := true }, db)
    else if !bcryptCompare password user.password then
      ({ status := 401, message := "Invalid email or password" }, db)
    else
      ({ status := 200, message := "Login successful",
         user := some { id := user.id, name := user.name, email := user.email,
                        role := user.role },
         token := some { userId := user.id, role := user.role,
                         expiresAt := now + 24 * 60 * 60 * 1000 } }, db)

/-- The reset-code record inserted when the upsert finds no match. -/
def freshResetOtp (db : DB) (email code : String) (exp : Nat) : Otp :=
  { id := db.nextOtpId, email := email, code := code,
    type := OtpType.reset, expiresAt := exp }

/-- Upsert of the reset OTP (Otp.findOneAndUpdate with upsert true on the
filter email plus type reset): update the first matching record's code and
expiry, or insert a fresh record when none matches. -/
def upsertResetOtp (db : DB) (email code : String) (exp : Nat) : DB :=
  if db.otps.any (fun o => o.email == email && o.type == OtpType.reset) then
    let otps1 := updateFirst (fun o => o.email == email && o.type == OtpType.reset)
      (fun o => { o with code := code, expiresAt := exp }) db.otps
    { db with otps := otps1 }
  else
    { db with otps := db.otps ++ [freshResetOtp db email code exp],
              nextOtpId := db.nextOtpId + 1 }

/-- Forgot-password route handler: when no user has the email, answer 200
with the anti-enumeration message and write nothing; when the user exists,
upsert the reset OTP with the static development code and a 15-minute
expiry and answer 200 with the sent message.  Note the two branches use
different message texts. -/
def forgotPassword (db : DB) (now : Nat) (email : String) : ApiResponse × DB :=
  match findUserByEmail db email with
  | none =>
    ({ status := 200,
       message := "If an account exists with this email, we have sent a reset code." },
     db)
  | some _ =>
    ({ status := 200, message := "Reset code sent to your email." },
     upsertResetOtp db email "123456" (now + 15 * 60 * 1000))

/-- Reset-password route handler: look up the reset code by email, code and
type only — unlike the verify-OTP handler there is no expiresAt re-check —
then bcrypt-hash the new password, write it onto the first user with that
email, and delete the consumed code. -/
def resetPassword (db : DB) (now : Nat) (email code newPassword : String) :
    ApiResponse × DB :=
  match findOtp db email code OtpType.reset with
  | none =>
    ({ status := 400, message := "Invalid or expired reset code" }, db)
  | some otpRecord =>
    let hashed := bcryptHash newPassword
    let db1 := { db with
      users := updateFirst (fun u => u.email == email)
                 (fun u => { u with password := hashed }) db.users }
    ({ status := 200,
       message := "Password updated successfully. You can now login." },
     { db1 with otps := deleteOtpById db1.otps otpRecord.id })

/-- Change-password route handler (settings): 401 without a session; fetch
the session user including the hidden password field (404 if gone); 400
unless the current password matches the stored hash; otherwise hash and
save the new password. -/
def changePassword (db : DB) (session : Option Session)
    (currentPassword newPassword : String) : ApiResponse × DB :=
  match session with
  | none => ({ status := 401, message := "Unauthorized" }, db)
  | some s =>
    match findUserById db s.userId with
    | none => ({ status := 404, message := "User not found" }, db)
    | some user =>
      if !bcryptCompare currentPassword user.password then
        ({ status := 400, message := "Incorrect current password" }, db)
      else
        let users1 := updateFirst (fun u => u.id == s.userId)
          (fun u => { u with password := bcryptHash newPassword }) db.users
        ({ status := 200, message := "Password updated successfully" },
         { db with users := users1 })

/-- Update-profile route handler: 401 without a session; otherwise a set of
name, bio, phoneNumber and image on the session user.  A field absent from
the request body is undefined in JavaScript and the document mapper drops
undefined values from the update, so absent fields keep their prior value. -/
def updateProfile (db : DB) (session : Option Session)
    (name bio phoneNumber image : Option String) : ApiResponse × DB :=
  match session with
  | none => ({ status := 401, message := "Unauthorized" }, db)
  | some s =>
    let users1 := updateFirst (fun u => u.id == s.userId)
      (fun u => { u with name := name.getD u.name, bio := bio.getD u.bio,
                         phoneNumber := phoneNumber.getD u.phoneNumber,
                         image := image.getD u.image }) db.users
    ({ status := 200, message := "Profile updated successfully" },
     { db with users := users1 })

/-- Patch carried by the preferences request body: each sub-field may be
absent (undefined), in which case the mapper drops it from the set. -/
structure PreferencesPatch where
  notificationsEnabled : Option Bool
  darkMode : Option Bool
  newsletterSubscribed : Option Bool
deriving Repr, DecidableEq

/-- Merge a preferences patch onto stored preferences, dot-notation set of
only the supplied sub-fields. -/
def applyPreferencesPatch (patch : PreferencesPatch) (p : Preferences) : Preferences :=
  { notificationsEnabled := patch.notificationsEnabled.getD p.notificationsEnabled,
    darkMode := patch.darkMode.getD p.darkMode,
    newsletterSubscribed := patch.newsletterSubscribed.getD p.newsletterSubscribed }

/-- Update-settings route handler: 401 without a session; otherwise a
dot-notation set of the supplied preference sub-fields on the session user.
When the session user no longer exists the update matches nothing and
reading preferences off the null result throws, caught as a 500. -/
def updatePreferences (db : DB) (session : Option Session)
    (patch : PreferencesPatch) : ApiResponse × DB :=
  match session with
  | none => ({ status := 401, message := "Unauthorized" }, db)
  | some s =>
    let users1 := updateFirst (fun u => u.id == s.userId)
      (fun u => { u with preferences := applyPreferencesPatch patch u.preferences })
      db.users
    match findUserById db s.userId with
    | none => ({ status := 500, message := "Server error" }, { db with users := users1 })
    | some u =>
      ({ status := 200, message := "Settings updated successfully",
         preferences := some (applyPreferencesPatch patch u.preferences) },
       { db with users := users1 })

/-- Number of stored one-time codes for a given email and purpose. -/
def otpCount (db : DB) (email : String) (t : OtpType) : Nat :=
  db.otps.countP (fun o => o.email == email && o.type == t)

/-- Number of stored one-time codes for a given email and purpose that are
still active (expiry not yet passed) at the given time. -/
def activeOtpCount (db : DB) (now : Nat) (email : String) (t : OtpType) : Nat :=
  db.otps.countP
    (fun o => o.email == email && o.type == t && decide (now ≤ o.expiresAt))

/-- One request-handling step of the system: some handler runs on some
input and the database moves to the post-state. -/
inductive Step : DB → DB → Prop where
  | ofSignup (db : DB) (now : Nat) (name email password : String)
      (role : Option String) : Step db (signup db now name email password role).2
  | ofVerifyOtp (db : DB) (now : Nat) (email code : String) :
      Step db (verifyOtp db now email code).2
  | ofLogin (db : DB) (now : Nat) (email password : String) :
      Step db (login db now email password).2
  | ofForgotPassword (db : DB) (now : Nat) (email : String) :
      Step db (forgotPassword db now email).2
  | ofResetPassword (db : DB) (now : Nat) (email code newPassword : String) :
      Step db (resetPassword db now email code newPassword).2
  | ofChangePassword (db : DB) (session : Option Session)
      (currentPassword newPassword : String) :
      Step db (changePassword db session currentPassword newPassword).2
  | ofUpdateProfile (db : DB) (session : Option Session)
      (name bio phoneNumber image : Option String) :
      Step db (updateProfile db session name bio phoneNumber image).2
  | ofUpdatePreferences (db : DB) (session : Option Session)
      (patch : PreferencesPatch) : Step db (updatePreferences db session patch).2

/-- Database states reachable from the fresh deployment by any sequence of
handler calls. -/
inductive Reachable : DB → Prop where
  | init : Reachable initDB
  | step {db db2 : DB} : Reachable db → Step db db2 → Reachable db2

/-- The inductive invariant: at most one stored code per email and purpose,
and every verification code belongs to a registered email. -/
def AuthInv (db : DB) : Prop :=
  (∀ email t, otpCount db email t ≤ 1) ∧
  (∀ o ∈ db.otps, o.type = OtpType.verification →
    ∃ u ∈ db.users, u.email = o.email)

/-- Concrete user record used by witnesses and counterexamples. -/
def mkUser (uid : Nat) (email pw role : String) (ver : Bool) : User :=
  { id := uid, name := "Test", email := email, password := bcryptHash pw,
    role := role, isVerified := ver, image := "", phoneNumber := "", bio := "",
    preferences := defaultPreferences }

/-- Database without the probed account (nextUserId aligned with dbWithUser
so the two differ only in the users list). -/
def dbNoUser : DB := { users := [], otps := [], nextUserId := 1, nextOtpId := 0 }

/-- Database holding one verified user for the probed email. -/
def dbWithUser : DB :=
  { users := [mkUser 0 "a@x.com" "oldpw" "user" true], otps := [],
    nextUserId := 1, nextOtpId := 0 }

/-- Expired reset code stored for the probed email. -/
def otpResetExpired : Otp :=
  { id := 0, email := "a@x.com", code := "123456", type := OtpType.reset,
    expiresAt := 1000 }

/-- Database with a verified user and an expired, not-yet-purged reset code. -/
def dbExpiredReset : DB :=
  { users := [mkUser 0 "a@x.com" "oldpw" "user" true],
    otps := [otpResetExpired], nextUserId := 1, nextOtpId := 1 }

/-- Expired verification code stored for the probed email. -/
def otpVerifExpired : Otp :=
  { id := 1, email := "a@x.com", code := "111111", type := OtpType.verification,
    expiresAt := 2000 }

/-- Unexpired reset code stored for the probed email. -/
def otpResetLive : Otp :=
  { id := 2, email := "a@x.com", code := "222222", type := OtpType.reset,
    expiresAt := 900000 }

/-- Database with an unverified user, an expired verification code and a
live reset code. -/
def dbTwoCodes : DB :=
  { users := [mkUser 0 "a@x.com" "oldpw" "user" false],
    otps := [otpVerifExpired, otpResetLive], nextUserId := 1, nextOtpId := 3 }

/-- Live verification code stored for the probed email. -/
def otpVerifLive : Otp :=
  { id := 0, email := "a@x.com", code := "123456", type := OtpType.verification,
    expiresAt := 600000 }

/-- Database with an unverified user, one live verification code and one
live reset code, distinct record ids. -/
def dbReplay : DB :=
  { users := [mkUser 0 "a@x.com" "oldpw" "user" false],
    otps := [otpVerifLive, otpResetLive], nextUserId := 1, nextOtpId := 3 }

/-- Database with a verified user and a live reset code. -/
def dbResetReady : DB :=
  { users := [mkUser 0 "a@x.com" "oldpw" "user" true],
    otps := [otpResetLive], nextUserId := 1, nextOtpId := 3 }


/-- The user record the successful signup branch creates. -/
def signedUpUser (db : DB) (name email password : String)
    (role : Option String) : User :=
  { id := db.nextUserId, name := name, email := email,
    password := bcryptHash password, role := roleOrDefault role,
    isVerified := false, image := "", phoneNumber := "", bio := "",
    preferences := defaultPreferences }

/-- The verification code record the successful signup branch creates. -/
def signupOtp (db : DB) (now : Nat) (email : String) : Otp :=
  { id := db.nextOtpId, email := email, code := "123456",
    type := OtpType.verification, expiresAt := now + 10 * 60 * 1000 }

/-- The bcrypt model is injective: equal digests come from equal plaintexts. -/
theorem bcryptHash_injective {a b : String} (h : bcryptHash a = bcryptHash b) :
    a = b := by
  have h2 : ("$2b$10$" ++ a).data = ("$2b$10$" ++ b).data := by
    simpa [bcryptHash] using congrArg String.data h
  simp [String.data_append] at h2
  exact String.ext h2

/-- Comparing a plaintext against its own hash succeeds. -/
theorem bcryptCompare_self (p : String) : bcryptCompare p (bcryptHash p) = true := by
  simp [bcryptCompare]

/-- Comparing a different plaintext against a hash fails. -/
theorem bcryptCompare_ne {p q : String} (h : p ≠ q) :
    bcryptCompare p (bcryptHash q) = false := by
  rw [bcryptCompare, beq_eq_false_iff_ne]
  exact fun hc => h (bcryptHash_injective hc)

/-- updateFirst preserves any count whose predicate the update respects. -/
theorem countP_updateFirst {α} (p : α → Bool) (f : α → α) (q : α → Bool)
    (h : ∀ x, q (f x) = q x) (l : List α) :
    (updateFirst p f l).countP q = l.countP q := by
  induction l with
  | nil => rfl
  | cons x xs ih =>
    by_cases hp : p x
    · simp [updateFirst, hp, List.countP_cons, h x]
    · simp [updateFirst, hp, List.countP_cons, ih]

/-- updateFirst leaves any projection the update respects unchanged. -/
theorem map_updateFirst {α β} (p : α → Bool) (f : α → α) (g : α → β)
    (h : ∀ x, g (f x) = g x) (l : List α) :
    (updateFirst p f l).map g = l.map g := by
  induction l with
  | nil => rfl
  | cons x xs ih =>
    by_cases hp : p x
    · simp [updateFirst, hp, h x]
    · simp [updateFirst, hp, ih]

/-- Every element of updateFirst is an old element or the update of one. -/
theorem mem_updateFirst {α} {p : α → Bool} {f : α → α} {l : List α} {x : α}
    (hx : x ∈ updateFirst p f l) : x ∈ l ∨ ∃ y ∈ l, x = f y := by
  induction l with
  | nil => simp [updateFirst] at hx
  | cons a as ih =>
    by_cases hp : p a
    · simp only [updateFirst, if_pos hp, List.mem_cons] at hx
      rcases hx with h | h
      · exact Or.inr ⟨a, List.mem_cons_self a as, h⟩
      · exact Or.inl (List.mem_cons_of_mem a h)
    · simp only [updateFirst, if_neg hp, List.mem_cons] at hx
      rcases hx with h | h
      · exact Or.inl (by simp [h])
      · rcases ih h with h2 | ⟨y, hy, hxy⟩
        · exact Or.inl (List.mem_cons_of_mem a h2)
        · exact Or.inr ⟨y, List.mem_cons_of_mem a hy, hxy⟩

/-- When the filter matched some element, updateFirst rewrites it: the first
match is found updated afterwards, provided the update keeps it matching. -/
theorem find?_updateFirst {α} {p : α → Bool} {f : α → α} {l : List α} {u : α}
    (hf : l.find? p = some u) (hfu : p (f u) = true) :
    (updateFirst p f l).find? p = some (f u) := by
  induction l with
  | nil => simp at hf
  | cons a as ih =>
    by_cases hp : p a
    · rw [List.find?_cons_of_pos _ hp] at hf
      injection hf with hau
      subst hau
      simp only [updateFirst, if_pos hp]
      rw [List.find?_cons_of_pos _ hfu]
    · rw [List.find?_cons_of_neg _ hp] at hf
      simp only [updateFirst, if_neg hp]
      rw [List.find?_cons_of_neg _ hp]
      exact ih hf

/-- The update of the found element belongs to the updated list. -/
theorem mem_updateFirst_of_find? {α} {p : α → Bool} {f : α → α} {l : List α} {u : α}
    (hf : l.find? p = some u) : f u ∈ updateFirst p f l := by
  induction l with
  | nil => simp at hf
  | cons a as ih =>
    by_cases hp : p a
    · rw [List.find?_cons_of_pos _ hp] at hf
      injection hf with hau
      subst hau
      simp [updateFirst, hp]
    · rw [List.find?_cons_of_neg _ hp] at hf
      simp only [updateFirst, if_neg hp, List.mem_cons]
      exact Or.inr (ih hf)

/-- updateFirst relates the old and new lists pointwise. -/
theorem forall₂_updateFirst {α} (R : α → α → Prop) (p : α → Bool) (f : α → α)
    (hrefl : ∀ x, R x x) (hf : ∀ x, R x (f x)) (l : List α) :
    List.Forall₂ R l (updateFirst p f l) := by
  induction l with
  | nil => exact List.Forall₂.nil
  | cons a as ih =>
    by_cases hp : p a
    · simp only [updateFirst, if_pos hp]
      exact List.Forall₂.cons (hf a) (List.forall₂_same.mpr fun x _ => hrefl x)
    · simp only [updateFirst, if_neg hp]
      exact List.Forall₂.cons (hrefl a) ih

/-- Deleting the found record by its id removes the last matching record
when ids are unique and at most one record matches. -/
theorem find?_eraseP_eq_none {l : List Otp} {p : Otp → Bool} {o : Otp}
    (hids : (l.map Otp.id).Nodup) (hc : l.countP p ≤ 1) (hf : l.find? p = some o) :
    (l.eraseP (fun x => x.id == o.id)).find? p = none := by
  induction l with
  | nil => simp at hf
  | cons a as ih =>
    by_cases hp : p a
    · rw [List.find?_cons_of_pos _ hp] at hf
      injection hf with hau
      subst hau
      have herase : (a :: as).eraseP (fun x => x.id == a.id) = as :=
        List.eraseP_cons_of_pos (by simp)
      rw [herase, List.find?_eq_none]
      intro x hx hpx
      have hz : as.countP p = 0 := by
        have hcc := hc
        rw [List.countP_cons_of_pos _ _ hp] at hcc
        omega
      rw [List.countP_eq_zero] at hz
      exact hz x hx hpx
    · rw [List.find?_cons_of_neg _ hp] at hf
      have ho : o ∈ as := List.mem_of_find?_eq_some hf
      have hane : (a.id == o.id) = false := by
        rw [beq_eq_false_iff_ne]
        intro hcontra
        have hmem : o.id ∈ as.map Otp.id := List.mem_map_of_mem _ ho
        rw [← hcontra] at hmem
        exact (List.nodup_cons.mp (by simpa using hids)).1 hmem
      rw [List.eraseP_cons_of_neg (by simp [hane]), List.find?_cons_of_neg _ hp]
      refine ih (List.nodup_cons.mp (by simpa using hids)).2 ?_ hf
      calc as.countP p = (a :: as).countP p := (List.countP_cons_of_neg _ _ hp).symm
        _ ≤ 1 := hc

/-- Claim C3: for a state holding a verified user at email e and a password
p not matching that user's hash, login of (e, p) and login of any
unregistered email with any password produce the very same
invalid-credentials result — response and post-state both — so the
no-such-user and wrong-password branches are observationally identical. -/
theorem claim_C3 (db : DB) (now : Nat) (e e2 p p2 : String) (u : User)
    (hu : findUserByEmail db e = some u)
    (hver : u.isVerified = true)
    (hwrong : bcryptCompare p u.password = false)
    (hnone : findUserByEmail db e2 = none) :
    login db now e p = login db now e2 p2 ∧
    (login db now e p).1 = { status := 401, message := "Invalid email or password" } ∧
    (login db now e p).2 = db := by
  simp [login, hu, hnone, hver, hwrong]

/-- Witness for claim C3 at a concrete database. -/
theorem claim_C3_witness :
    login dbWithUser 0 "a@x.com" "wrong" = login dbWithUser 0 "nouser@x.com" "anything" ∧
    (login dbWithUser 0 "a@x.com" "wrong").1 =
      { status := 401, message := "Invalid email or password" } ∧
    (login dbWithUser 0 "a@x.com" "wrong").2 = dbWithUser :=
  claim_C3 dbWithUser 0 "a@x.com" "nouser@x.com" "wrong" "anything"
    (mkUser 0 "a@x.com" "oldpw" "user" true) (by decide) (by decide) (by decide) (by decide)

/-- Claim C5: a user freshly created by a successful signup is unverified,
and logging in on the resulting state fails with the 403 not-verified
response for every password — including the correct one — without ever
reaching the password comparison, the branch order being find user, check
verified, compare password. -/
theorem claim_C5 (db : DB) (now now2 : Nat) (name email password : String)
    (role : Option String)
    (hsucc : (signup db now name email password role).1.status = 201) :
    ∀ p : String,
      login (signup db now name email password role).2 now2 email p =
        ({ status := 403, message := "Please verify your email before logging in",
           unverified := true },
         (signup db now name email password role).2) := by
  intro p
  rcases h1 : findUserByEmail db email with _ | u
  · by_cases h2 : (roleOrDefault role == "user" || roleOrDefault role == "admin") = true
    · have hfind : findUserByEmail (signup db now name email password role).2 email =
        some { id := db.nextUserId, name := name, email := email,
               password := bcryptHash password, role := roleOrDefault role,
               isVerified := false, image := "", phoneNumber := "", bio := "",
               preferences := defaultPreferences } := by
        simp only [signup, h1, h2, if_pos]
        unfold findUserByEmail at h1 ⊢
        simp [List.find?_append, h1]
      simp [login, hfind]
    · simp [signup, h1, h2] at hsucc
  · simp [signup, h1] at hsucc

/-- Witness for claim C5 at a concrete database. -/
theorem claim_C5_witness :
    login (signup initDB 0 "Alice" "a@x.com" "secret1" none).2 5 "a@x.com" "secret1" =
      ({ status := 403, message := "Please verify your email before logging in",
         unverified := true },
       (signup initDB 0 "Alice" "a@x.com" "secret1" none).2) :=
  claim_C5 initDB 0 5 "Alice" "a@x.com" "secret1" none (by decide) "secret1"

/-- Characterization of the successful signup branch. -/
theorem signup_success (db : DB) (now : Nat) (name email password : String)
    (role : Option String) (hfresh : findUserByEmail db email = none)
    (hrole : (roleOrDefault role == "user" || roleOrDefault role == "admin") = true) :
    signup db now name email password role =
      ({ status := 201,
         message := "User registered successfully. Please verify your email.",
         userId := some db.nextUserId },
       { db with
         users := db.users ++ [signedUpUser db name email password role],
         otps := db.otps ++ [signupOtp db now email],
         nextUserId := db.nextUserId + 1, nextOtpId := db.nextOtpId + 1 }) := by
  simp [signup, hfresh, hrole, signedUpUser, signupOtp]

/-- Claim C6: signup on a registered email fails with the duplicate-email
response and leaves the state untouched; on a fresh email (with a role the
schema enum accepts after defaulting) it answers 201 with the new user id
and the state gains a user carrying the hashed password and isVerified
false plus a verification code expiring ten minutes from now. -/
theorem claim_C6 (db : DB) (now : Nat) (name email password : String)
    (role : Option String) :
    ((findUserByEmail db email).isSome →
      signup db now name email password role =
        ({ status := 400, message := "A user with this email already exists" }, db)) ∧
    (findUserByEmail db email = none →
      (roleOrDefault role == "user" || roleOrDefault role == "admin") = true →
      (signup db now name email password role).1.status = 201 ∧
      (signup db now name email password role).1.userId = some db.nextUserId ∧
      (∃ u ∈ (signup db now name email password role).2.users,
        u.id = db.nextUserId ∧ u.email = email ∧
        u.password = bcryptHash password ∧ u.isVerified = false) ∧
      (∃ o ∈ (signup db now name email password role).2.otps,
        o.email = email ∧ o.type = OtpType.verification ∧ o.code = "123456" ∧
        o.expiresAt = now + 10 * 60 * 1000)) := by
  constructor
  · intro hsome
    rcases Option.isSome_iff_exists.mp hsome with ⟨u, hu⟩
    simp [signup, hu]
  · intro h1 h2
    rw [signup_success db now name email password role h1 h2]
    exact ⟨rfl, rfl,
      ⟨signedUpUser db name email password role, by simp, rfl, rfl, rfl, rfl⟩,
      ⟨signupOtp db now email, by simp, rfl, rfl, rfl, rfl⟩⟩

/-- Witness for claim C6: a duplicate signup and a fresh signup. -/
theorem claim_C6_witness :
    signup dbWithUser 0 "Bob" "a@x.com" "pw" none =
      ({ status := 400, message := "A user with this email already exists" },
       dbWithUser) ∧
    (signup initDB 0 "Alice" "b@x.com" "pw" none).1.status = 201 := by
  constructor
  · exact (claim_C6 dbWithUser 0 "Bob" "a@x.com" "pw" none).1 (by decide)
  · exact ((claim_C6 initDB 0 "Alice" "b@x.com" "pw" none).2 (by decide) (by decide)).1

/-- Claim C10 counterexample: a signup request whose role field is present
but an empty string also stores the default role user, so the default does
not occur only when the field is absent. -/
theorem claim_C10_counterexample :
    (some "" : Option String) ≠ none ∧
    (signup initDB 0 "Bob" "b@x.com" "pw" (some "")).2.users =
      [{ id := 0, name := "Bob", email := "b@x.com", password := bcryptHash "pw",
         role := "user", isVerified := false, image := "", phoneNumber := "",
         bio := "", preferences := defaultPreferences }] := by
  exact ⟨by simp, by decide⟩

/-- Claim C10 as amended: signup stores a caller-supplied admin role
verbatim with no authorization gate, and the role defaults to user exactly
when the field is absent or falsy (the empty string). -/
theorem claim_C10_amended (db : DB) (now : Nat) (name email password : String)
    (hfresh : findUserByEmail db email = none) :
    (∃ u ∈ (signup db now name email password (some "admin")).2.users,
      u.id = db.nextUserId ∧ u.email = email ∧ u.role = "admin") ∧
    (∃ u ∈ (signup db now name email password none).2.users,
      u.id = db.nextUserId ∧ u.email = email ∧ u.role = "user") ∧
    (∃ u ∈ (signup db now name email password (some "")).2.users,
      u.id = db.nextUserId ∧ u.email = email ∧ u.role = "user") := by
  have hadmin : roleOrDefault (some "admin") = "admin" := by decide
  have hnone : roleOrDefault none = "user" := by decide
  have hempty : roleOrDefault (some "") = "user" := by decide
  refine ⟨?_, ?_, ?_⟩
  · rw [signup_success db now name email password (some "admin") hfresh (by decide)]
    exact ⟨signedUpUser db name email password (some "admin"), by simp, rfl, rfl,
      by simp [signedUpUser, hadmin]⟩
  · rw [signup_success db now name email password none hfresh (by decide)]
    exact ⟨signedUpUser db name email password none, by simp, rfl, rfl,
      by simp [signedUpUser, hnone]⟩
  · rw [signup_success db now name email password (some "") hfresh (by decide)]
    exact ⟨signedUpUser db name email password (some ""), by simp, rfl, rfl,
      by simp [signedUpUser, hempty]⟩

/-- Witness for the amended claim C10 on the empty database. -/
theorem claim_C10_amended_witness :
    ∃ u ∈ (signup initDB 0 "Eve" "e@x.com" "pw" (some "admin")).2.users,
      u.id = 0 ∧ u.email = "e@x.com" ∧ u.role = "admin" :=
  (claim_C10_amended initDB 0 "Eve" "e@x.com" "pw" (by decide)).1

/-- Claim C1 counterexample: two databases differing only in whether the
probed user exists yield different forgot-password responses — the two
branches answer with different message texts, so the responses are
distinguishable. -/
theorem claim_C1_counterexample :
    dbNoUser.otps = dbWithUser.otps ∧
    dbNoUser.nextUserId = dbWithUser.nextUserId ∧
    dbNoUser.nextOtpId = dbWithUser.nextOtpId ∧
    (forgotPassword dbNoUser 0 "a@x.com").1 ≠ (forgotPassword dbWithUser 0 "a@x.com").1 :=
  ⟨rfl, rfl, rfl, by decide⟩

/-- What the reset-code upsert guarantees: a record for the email with the
requested code and expiry is present afterwards, the number of reset
records for the email becomes the maximum of its old value and one, and
the users collection is untouched. -/
theorem upsertResetOtp_spec (db : DB) (email code : String) (exp : Nat) :
    (∃ o ∈ (upsertResetOtp db email code exp).otps,
      o.email = email ∧ o.type = OtpType.reset ∧ o.code = code ∧ o.expiresAt = exp) ∧
    otpCount (upsertResetOtp db email code exp) email OtpType.reset =
      max (otpCount db email OtpType.reset) 1 ∧
    (upsertResetOtp db email code exp).users = db.users := by
  by_cases hany :
      (db.otps.any (fun o => o.email == email && o.type == OtpType.reset)) = true
  · have hfind : (db.otps.find? (fun o => o.email == email && o.type == OtpType.reset)).isSome := by
      rw [List.find?_isSome]
      exact List.any_eq_true.mp hany
    rcases Option.isSome_iff_exists.mp hfind with ⟨x, hx⟩
    have hpx := List.find?_some hx
    rw [Bool.and_eq_true, beq_iff_eq, beq_iff_eq] at hpx
    have hpos : 0 < otpCount db email OtpType.reset := by
      rw [otpCount, List.countP_pos_iff]
      exact List.any_eq_true.mp hany
    unfold upsertResetOtp
    rw [if_pos hany]
    refine ⟨⟨{ x with code := code, expiresAt := exp }, ?_, hpx.1, hpx.2, rfl, rfl⟩, ?_, rfl⟩
    · exact mem_updateFirst_of_find? hx
    · have hpres := countP_updateFirst
        (fun o => o.email == email && o.type == OtpType.reset)
        (fun o => { o with code := code, expiresAt := exp })
        (fun o => o.email == email && o.type == OtpType.reset)
        (fun x => rfl) db.otps
      rw [otpCount] at hpos ⊢
      rw [otpCount]
      simp only []
      rw [hpres]
      omega
  · have hzero : otpCount db email OtpType.reset = 0 := by
      rw [otpCount, List.countP_eq_zero]
      intro o ho
      have hfalse : (db.otps.any (fun o => o.email == email && o.type == OtpType.reset)) = false := by
        simpa using hany
      exact List.any_eq_false.mp hfalse o ho
    unfold upsertResetOtp
    rw [if_neg hany]
    refine ⟨⟨freshResetOtp db email code exp, by simp, ⟨rfl, rfl, rfl, rfl⟩⟩, ?_, rfl⟩
    rw [otpCount] at hzero
    rw [otpCount, otpCount]
    simp only [List.countP_append, hzero]
    simp [List.countP_cons, freshResetOtp]

/-- Claim C1 as amended: forgot-password always answers HTTP 200, writes
nothing when the email is unregistered, and upserts the reset code with a
15-minute expiry exactly when the user exists — but the two branches carry
different message bodies, so the two responses are not indistinguishable. -/
theorem claim_C1_amended (db : DB) (now : Nat) (email : String) :
    (forgotPassword db now email).1.status = 200 ∧
    (findUserByEmail db email = none →
      forgotPassword db now email =
        ({ status := 200,
           message := "If an account exists with this email, we have sent a reset code." },
         db)) ∧
    ((findUserByEmail db email).isSome →
      (forgotPassword db now email).1.message = "Reset code sent to your email." ∧
      (∃ o ∈ (forgotPassword db now email).2.otps,
        o.email = email ∧ o.type = OtpType.reset ∧ o.code = "123456" ∧
        o.expiresAt = now + 15 * 60 * 1000) ∧
      otpCount (forgotPassword db now email).2 email OtpType.reset =
        max (otpCount db email OtpType.reset) 1) := by
  refine ⟨?_, ?_, ?_⟩
  · rcases h : findUserByEmail db email with _ | u <;> simp [forgotPassword, h]
  · intro h
    simp [forgotPassword, h]
  · intro hsome
    rcases Option.isSome_iff_exists.mp hsome with ⟨u, hu⟩
    simp only [forgotPassword, hu]
    have hspec := upsertResetOtp_spec db email "123456" (now + 15 * 60 * 1000)
    exact ⟨trivial, hspec.1, hspec.2.1⟩

/-- Witness for the amended claim C1 at a concrete database. -/
theorem claim_C1_amended_witness :
    (forgotPassword dbWithUser 0 "a@x.com").1.status = 200 ∧
    (forgotPassword dbWithUser 0 "a@x.com").1.message = "Reset code sent to your email." ∧
    otpCount (forgotPassword dbWithUser 0 "a@x.com").2 "a@x.com" OtpType.reset = 1 := by
  have h := claim_C1_amended dbWithUser 0 "a@x.com"
  have h3 := h.2.2 (by decide)
  refine ⟨h.1, h3.1, ?_⟩
  rw [h3.2.2]
  decide

/-- Claim C2 counterexample: a reset code still present in the store but
whose expiry has passed is nevertheless consumed successfully by the
reset-password handler — it answers 200 and replaces the user's password
hash rather than rejecting the expired code, because that handler never
re-checks expiresAt. -/
theorem claim_C2_counterexample :
    otpResetExpired ∈ dbExpiredReset.otps ∧
    (1000000 : Nat) > otpResetExpired.expiresAt ∧
    (resetPassword dbExpiredReset 1000000 "a@x.com" "123456" "newpw").1.status = 200 ∧
    (resetPassword dbExpiredReset 1000000 "a@x.com" "123456" "newpw").2.users =
      [{ mkUser 0 "a@x.com" "oldpw" "user" true with password := bcryptHash "newpw" }] :=
  ⟨by decide, by decide, by decide, by decide⟩

/-- Claim C2 as amended: only the verification purpose gets the defensive
expiry re-check — an expired verification code still present is rejected
with a 400 and deleted, leaving users untouched — while the reset purpose
does not: resetPassword accepts any stored matching reset record
regardless of its expiry. -/
theorem claim_C2_amended (db : DB) (now : Nat) (email code newPassword : String) :
    (∀ o, findOtp db email code OtpType.verification = some o → now > o.expiresAt →
      (verifyOtp db now email code).1 =
        { status := 400, message := "Verification code has expired" } ∧
      (verifyOtp db now email code).2.users = db.users ∧
      (verifyOtp db now email code).2.otps = deleteOtpById db.otps o.id) ∧
    (∀ o, findOtp db email code OtpType.reset = some o →
      (resetPassword db now email code newPassword).1.status = 200) := by
  constructor
  · intro o ho hexp
    simp [verifyOtp, ho, hexp]
  · intro o ho
    simp [resetPassword, ho]

/-- Witness for the amended claim C2: one expired verification code is
rejected, one expired reset code is accepted, on concrete databases. -/
theorem claim_C2_amended_witness :
    (verifyOtp dbTwoCodes 5000 "a@x.com" "111111").1 =
      { status := 400, message := "Verification code has expired" } ∧
    (resetPassword dbTwoCodes 5000 "a@x.com" "222222" "np").1.status = 200 := by
  have h := claim_C2_amended dbTwoCodes 5000 "a@x.com" "111111" "np"
  have h2 := claim_C2_amended dbTwoCodes 5000 "a@x.com" "222222" "np"
  exact ⟨(h.1 otpVerifExpired (by decide) (by decide)).1, h2.2 otpResetLive (by decide)⟩

/-- Claim C4: when stored record ids are unique and at most one stored code
matches the submitted email, code and purpose (as holds in every reachable
state), a second consumption of the same code fails with the 400
invalid-or-expired response after a successful first consumption — for the
verification purpose through verifyOtp and for the reset purpose through
resetPassword, whose success deletes the consumed record. -/
theorem claim_C4 (db : DB) (now now2 : Nat) (email code npw npw2 : String)
    (hids : (db.otps.map Otp.id).Nodup)
    (hv : db.otps.countP (otpMatch email code OtpType.verification) ≤ 1)
    (hr : db.otps.countP (otpMatch email code OtpType.reset) ≤ 1) :
    ((verifyOtp db now email code).1.status = 200 →
      (verifyOtp (verifyOtp db now email code).2 now2 email code).1 =
        { status := 400, message := "Invalid or expired verification code" }) ∧
    ((resetPassword db now email code npw).1.status = 200 →
      (resetPassword (resetPassword db now email code npw).2 now2 email code npw2).1 =
        { status := 400, message := "Invalid or expired reset code" }) := by
  constructor
  · intro hsucc
    rcases ho : findOtp db email code OtpType.verification with _ | o
    · simp [verifyOtp, ho] at hsucc
    · by_cases hexp : now > o.expiresAt
      · simp [verifyOtp, ho, hexp] at hsucc
      · have hstate : (verifyOtp db now email code).2.otps = deleteOtpById db.otps o.id := by
          simp [verifyOtp, ho, hexp]
        have hnone : findOtp (verifyOtp db now email code).2 email code OtpType.verification = none := by
          rw [findOtp, hstate, deleteOtpById]
          exact find?_eraseP_eq_none hids hv (by rw [findOtp] at ho; exact ho)
        generalize hg : (verifyOtp db now email code).2 = db2 at hnone ⊢
        simp [verifyOtp, hnone]
  · intro hsucc
    rcases ho : findOtp db email code OtpType.reset with _ | o
    · simp [resetPassword, ho] at hsucc
    · have hstate : (resetPassword db now email code npw).2.otps = deleteOtpById db.otps o.id := by
        simp [resetPassword, ho]
      have hnone : findOtp (resetPassword db now email code npw).2 email code OtpType.reset = none := by
        rw [findOtp, hstate, deleteOtpById]
        exact find?_eraseP_eq_none hids hr (by rw [findOtp] at ho; exact ho)
      generalize hg : (resetPassword db now email code npw).2 = db2 at hnone ⊢
      simp [resetPassword, hnone]

/-- Witness for claim C4: successful consumption followed by a rejected
replay, for both purposes, on a concrete database. -/
theorem claim_C4_witness :
    (verifyOtp dbReplay 5 "a@x.com" "123456").1.status = 200 ∧
    (verifyOtp (verifyOtp dbReplay 5 "a@x.com" "123456").2 6 "a@x.com" "123456").1 =
      { status := 400, message := "Invalid or expired verification code" } ∧
    (resetPassword dbReplay 5 "a@x.com" "222222" "np").1.status = 200 ∧
    (resetPassword (resetPassword dbReplay 5 "a@x.com" "222222" "np").2 6 "a@x.com" "222222" "np2").1 =
      { status := 400, message := "Invalid or expired reset code" } := by
  have h := claim_C4 dbReplay 5 6 "a@x.com" "123456" "np" "np2" (by decide) (by decide) (by decide)
  have h2 := claim_C4 dbReplay 5 6 "a@x.com" "222222" "np" "np2" (by decide) (by decide) (by decide)
  exact ⟨by decide, h.1 (by decide), by decide, h2.2 (by decide)⟩

/-- Claim C7: for a verified user whose stored hash verifies the old
password, once a matching reset code is present resetPassword succeeds,
after which the old password no longer authenticates (401
invalid-credentials) and the new password logs in with a 200 — the stored
hash now verifies exactly the new password.  The old password is assumed
distinct from the new one, as otherwise the two coincide. -/
theorem claim_C7 (db : DB) (now now2 : Nat) (email code oldP newP : String) (u : User)
    (hu : findUserByEmail db email = some u)
    (hver : u.isVerified = true)
    (hold : u.password = bcryptHash oldP)
    (hne : oldP ≠ newP)
    (ho : (findOtp db email code OtpType.reset).isSome) :
    (resetPassword db now email code newP).1.status = 200 ∧
    (login db now2 email oldP).1.status = 200 ∧
    (login (resetPassword db now email code newP).2 now2 email oldP).1 =
      { status := 401, message := "Invalid email or password" } ∧
    (login (resetPassword db now email code newP).2 now2 email newP).1.status = 200 := by
  rcases Option.isSome_iff_exists.mp ho with ⟨o, hoo⟩
  have hpu : (fun v : User => v.email == email) u = true := by
    have := List.find?_some hu
    simpa using this
  have husers : (resetPassword db now email code newP).2.users =
      updateFirst (fun v => v.email == email)
        (fun v => { v with password := bcryptHash newP }) db.users := by
    simp [resetPassword, hoo]
  have hfind2 : findUserByEmail (resetPassword db now email code newP).2 email =
      some { u with password := bcryptHash newP } := by
    rw [findUserByEmail, husers]
    exact find?_updateFirst hu hpu
  refine ⟨by simp [resetPassword, hoo], ?_, ?_, ?_⟩
  · simp [login, hu, hver, hold, bcryptCompare_self]
  · have hcmp : bcryptCompare oldP (bcryptHash newP) = false := bcryptCompare_ne hne
    simp [login, hfind2, hver, hcmp]
  · simp [login, hfind2, hver, bcryptCompare_self]

/-- Witness for claim C7 at a concrete database with a live reset code. -/
theorem claim_C7_witness :
    (resetPassword dbResetReady 5 "a@x.com" "222222" "newpw").1.status = 200 ∧
    (login dbResetReady 6 "a@x.com" "oldpw").1.status = 200 ∧
    (login (resetPassword dbResetReady 5 "a@x.com" "222222" "newpw").2 6 "a@x.com" "oldpw").1 =
      { status := 401, message := "Invalid email or password" } ∧
    (login (resetPassword dbResetReady 5 "a@x.com" "222222" "newpw").2 6 "a@x.com" "newpw").1.status = 200 :=
  claim_C7 dbResetReady 5 6 "a@x.com" "222222" "oldpw" "newpw"
    (mkUser 0 "a@x.com" "oldpw" "user" true) (by decide) (by decide) (by decide)
    (by decide) (by decide)

/-- Claim C9: the profile and preferences handlers perform a partial
merge-update of non-credential fields only — for a session call, every
user keeps password hash, email, role and verification flag, and any
updatable field absent from the request keeps its prior value — while an
unauthenticated call fails with the 401 unauthorized response and changes
nothing. -/
theorem claim_C9 (db : DB) (s : Session) (nameO bioO phoneO imageO : Option String)
    (patch : PreferencesPatch) :
    (updateProfile db none nameO bioO phoneO imageO =
      ({ status := 401, message := "Unauthorized" }, db)) ∧
    (updatePreferences db none patch =
      ({ status := 401, message := "Unauthorized" }, db)) ∧
    List.Forall₂ (fun old new =>
        new.password = old.password ∧ new.email = old.email ∧
        new.role = old.role ∧ new.isVerified = old.isVerified ∧
        (nameO = none → new.name = old.name) ∧
        (bioO = none → new.bio = old.bio) ∧
        (phoneO = none → new.phoneNumber = old.phoneNumber) ∧
        (imageO = none → new.image = old.image) ∧
        new.preferences = old.preferences)
      db.users (updateProfile db (some s) nameO bioO phoneO imageO).2.users ∧
    List.Forall₂ (fun old new =>
        new.password = old.password ∧ new.email = old.email ∧
        new.role = old.role ∧ new.isVerified = old.isVerified ∧
        new.name = old.name ∧
        (patch.notificationsEnabled = none →
          new.preferences.notificationsEnabled = old.preferences.notificationsEnabled) ∧
        (patch.darkMode = none →
          new.preferences.darkMode = old.preferences.darkMode) ∧
        (patch.newsletterSubscribed = none →
          new.preferences.newsletterSubscribed = old.preferences.newsletterSubscribed))
      db.users (updatePreferences db (some s) patch).2.users := by
  refine ⟨rfl, rfl, ?_, ?_⟩
  · have husers : (updateProfile db (some s) nameO bioO phoneO imageO).2.users =
        updateFirst (fun u => u.id == s.userId)
          (fun u => { u with name := nameO.getD u.name, bio := bioO.getD u.bio,
                             phoneNumber := phoneO.getD u.phoneNumber,
                             image := imageO.getD u.image }) db.users := rfl
    rw [husers]
    refine forall₂_updateFirst _ _ _ ?_ ?_ db.users
    · intro x
      refine ⟨rfl, rfl, rfl, rfl, fun _ => rfl, fun _ => rfl, fun _ => rfl, fun _ => rfl, rfl⟩
    · intro x
      refine ⟨rfl, rfl, rfl, rfl, ?_, ?_, ?_, ?_, rfl⟩
      · intro h; simp [h]
      · intro h; simp [h]
      · intro h; simp [h]
      · intro h; simp [h]
  · have husers : (updatePreferences db (some s) patch).2.users =
        updateFirst (fun u => u.id == s.userId)
          (fun u => { u with preferences := applyPreferencesPatch patch u.preferences })
          db.users := by
      rcases h : findUserById db s.userId with _ | u <;> simp [updatePreferences, h]
    rw [husers]
    refine forall₂_updateFirst _ _ _ ?_ ?_ db.users
    · intro x
      exact ⟨rfl, rfl, rfl, rfl, rfl, fun _ => rfl, fun _ => rfl, fun _ => rfl⟩
    · intro x
      refine ⟨rfl, rfl, rfl, rfl, rfl, ?_, ?_, ?_⟩
      · intro h; simp [applyPreferencesPatch, h]
      · intro h; simp [applyPreferencesPatch, h]
      · intro h; simp [applyPreferencesPatch, h]

/-- Witness for claim C9 on a concrete database and request. -/
theorem claim_C9_witness :
    (updateProfile dbWithUser none (some "N") none none none =
      ({ status := 401, message := "Unauthorized" }, dbWithUser)) ∧
    List.Forall₂ (fun old new : User =>
        new.password = old.password ∧ new.email = old.email ∧
        new.role = old.role ∧ new.isVerified = old.isVerified ∧
        ((some "N" : Option String) = none → new.name = old.name) ∧
        ((none : Option String) = none → new.bio = old.bio) ∧
        ((none : Option String) = none → new.phoneNumber = old.phoneNumber) ∧
        ((none : Option String) = none → new.image = old.image) ∧
        new.preferences = old.preferences)
      dbWithUser.users
      (updateProfile dbWithUser (some { userId := 0, role := "user" })
        (some "N") none none none).2.users :=
  ⟨(claim_C9 dbWithUser { userId := 0, role := "user" } (some "N") none none none
      { notificationsEnabled := none, darkMode := none, newsletterSubscribed := none }).1,
   (claim_C9 dbWithUser { userId := 0, role := "user" } (some "N") none none none
      { notificationsEnabled := none, darkMode := none, newsletterSubscribed := none }).2.2.1⟩

theorem login_snd (db : DB) (now : Nat) (email password : String) :
    (login db now email password).2 = db := by
  rcases h : findUserByEmail db email with _ | u
  · simp [login, h]
  · by_cases h1 : u.isVerified <;>
      by_cases h2 : bcryptCompare password u.password <;> simp [login, h, h1, h2]

theorem exists_user_email_updateFirst (p : User → Bool) (f : User → User)
    (hf : ∀ x, (f x).email = x.email) (l : List User) (e : String)
    (h : ∃ v ∈ l, v.email = e) : ∃ v ∈ updateFirst p f l, v.email = e := by
  rcases h with ⟨v, hv, hve⟩
  have hmem : e ∈ (updateFirst p f l).map User.email := by
    rw [map_updateFirst p f User.email hf l]
    exact List.mem_map.mpr ⟨v, hv, hve⟩
  rcases List.mem_map.mp hmem with ⟨w, hw, hwe⟩
  exact ⟨w, hw, hwe⟩

theorem authInv_init : AuthInv initDB := by
  constructor
  · intro email t
    simp [otpCount, initDB]
  · intro o ho
    simp [initDB] at ho

theorem authInv_users_update (db : DB) (p : User → Bool) (f : User → User)
    (hf : ∀ x, (f x).email = x.email) (hinv : AuthInv db) :
    AuthInv { db with users := updateFirst p f db.users } := by
  constructor
  · intro e t
    exact hinv.1 e t
  · intro o ho ht
    exact exists_user_email_updateFirst p f hf db.users o.email (hinv.2 o ho ht)

theorem authInv_otps_erase (db : DB) (oid : Nat) (hinv : AuthInv db) :
    AuthInv { db with otps := deleteOtpById db.otps oid } := by
  constructor
  · intro e t
    calc otpCount { db with otps := deleteOtpById db.otps oid } e t
        ≤ otpCount db e t := (List.eraseP_sublist db.otps).countP_le _
      _ ≤ 1 := hinv.1 e t
  · intro o ho ht
    exact hinv.2 o ((List.eraseP_sublist db.otps).subset ho) ht

theorem authInv_update_erase (db : DB) (p : User → Bool) (f : User → User)
    (hf : ∀ x, (f x).email = x.email) (oid : Nat) (hinv : AuthInv db) :
    AuthInv { db with users := updateFirst p f db.users,
                      otps := deleteOtpById db.otps oid } :=
  authInv_users_update { db with otps := deleteOtpById db.otps oid } p f hf
    (authInv_otps_erase db oid hinv)

theorem authInv_signup (db : DB) (now : Nat) (name email password : String)
    (role : Option String) (hinv : AuthInv db) :
    AuthInv (signup db now name email password role).2 := by
  rcases h1 : findUserByEmail db email with _ | u
  · by_cases h2 : (roleOrDefault role == "user" || roleOrDefault role == "admin") = true
    · rw [signup_success db now name email password role h1 h2]
      constructor
      · intro e t
        rw [otpCount]
        simp only [List.countP_append]
        by_cases hq : ((signupOtp db now email).email == e &&
            (signupOtp db now email).type == t) = true
        · rw [Bool.and_eq_true, beq_iff_eq, beq_iff_eq] at hq
          have he : e = email := by
            have := hq.1
            simp [signupOtp] at this
            exact this.symm
          have ht : t = OtpType.verification := by
            have := hq.2
            simp [signupOtp] at this
            exact this.symm
          rw [he, ht]
          have hz : db.otps.countP (fun o => o.email == email && o.type == OtpType.verification) = 0 := by
            rw [List.countP_eq_zero]
            intro o ho hP
            rw [Bool.and_eq_true, beq_iff_eq, beq_iff_eq] at hP
            rcases hinv.2 o ho hP.2 with ⟨v, hv, hve⟩
            have hvn := List.find?_eq_none.mp h1 v hv
            rw [hve, hP.1] at hvn
            simp at hvn
          rw [hz]
          simp [List.countP_cons, signupOtp]
        · have hq2 : ((signupOtp db now email).email == e &&
              (signupOtp db now email).type == t) = false := by
            simpa using hq
          have hone : ([signupOtp db now email].countP (fun o => o.email == e && o.type == t)) = 0 := by
            simp only [List.countP_cons, List.countP_nil, hq2]
            simp
          rw [hone]
          have hle := hinv.1 e t
          rw [otpCount] at hle
          omega
      · intro o ho htype
        rw [List.mem_append] at ho
        rcases ho with ho | ho
        · rcases hinv.2 o ho htype with ⟨v, hv, hve⟩
          exact ⟨v, List.mem_append_left _ hv, hve⟩
        · rw [List.mem_singleton] at ho
          subst ho
          refine ⟨signedUpUser db name email password role, ?_, ?_⟩
          · exact List.mem_append_right _ (List.mem_singleton.mpr rfl)
          · simp [signedUpUser, signupOtp]
    · have hst : (signup db now name email password role).2 = db := by
        simp [signup, h1, h2]
      rw [hst]
      exact hinv
  · have hst : (signup db now name email password role).2 = db := by
      simp [signup, h1]
    rw [hst]
    exact hinv

theorem authInv_upsertResetOtp (db : DB) (email code : String) (exp : Nat)
    (hinv : AuthInv db) : AuthInv (upsertResetOtp db email code exp) := by
  by_cases hany : (db.otps.any (fun o => o.email == email && o.type == OtpType.reset)) = true
  · unfold upsertResetOtp
    rw [if_pos hany]
    constructor
    · intro e t
      have hpres := countP_updateFirst
        (fun o => o.email == email && o.type == OtpType.reset)
        (fun o => { o with code := code, expiresAt := exp })
        (fun o => o.email == e && o.type == t)
        (fun x => rfl) db.otps
      have hle := hinv.1 e t
      rw [otpCount] at hle ⊢
      simp only []
      rw [hpres]
      exact hle
    · intro o ho ht
      rcases mem_updateFirst ho with h | ⟨y, hy, hxy⟩
      · exact hinv.2 o h ht
      · subst hxy
        rcases hinv.2 y hy (by simpa using ht) with ⟨v, hv, hve⟩
        exact ⟨v, hv, by simpa using hve⟩
  · unfold upsertResetOtp
    rw [if_neg hany]
    constructor
    · intro e t
      rw [otpCount]
      simp only [List.countP_append]
      by_cases hb : ((freshResetOtp db email code exp).email == e &&
          (freshResetOtp db email code exp).type == t) = true
      · rw [Bool.and_eq_true, beq_iff_eq, beq_iff_eq] at hb
        have he : e = email := by
          have := hb.1
          simp [freshResetOtp] at this
          exact this.symm
        have ht : t = OtpType.reset := by
          have := hb.2
          simp [freshResetOtp] at this
          exact this.symm
        rw [he, ht]
        have hz : db.otps.countP (fun o => o.email == email && o.type == OtpType.reset) = 0 := by
          rw [List.countP_eq_zero]
          intro o ho
          have hfalse : (db.otps.any (fun o => o.email == email && o.type == OtpType.reset)) = false := by
            simpa using hany
          exact List.any_eq_false.mp hfalse o ho
        rw [hz]
        simp [List.countP_cons, freshResetOtp]
      · have hb2 : ((freshResetOtp db email code exp).email == e &&
            (freshResetOtp db email code exp).type == t) = false := by
          simpa using hb
        have hone : ([freshResetOtp db email code exp].countP (fun o => o.email == e && o.type == t)) = 0 := by
          simp only [List.countP_cons, List.countP_nil, hb2]
          simp
        rw [hone]
        have hle := hinv.1 e t
        rw [otpCount] at hle
        omega
    · intro o ho ht
      rcases List.mem_append.mp ho with h | h
      · exact hinv.2 o h ht
      · rw [List.mem_singleton] at h
        subst h
        simp [freshResetOtp] at ht

theorem authInv_forgotPassword (db : DB) (now : Nat) (email : String)
    (hinv : AuthInv db) : AuthInv (forgotPassword db now email).2 := by
  rcases h : findUserByEmail db email with _ | u
  · have hst : (forgotPassword db now email).2 = db := by simp [forgotPassword, h]
    rw [hst]
    exact hinv
  · have hst : (forgotPassword db now email).2 =
        upsertResetOtp db email "123456" (now + 15 * 60 * 1000) := by
      simp [forgotPassword, h]
    rw [hst]
    exact authInv_upsertResetOtp db email "123456" (now + 15 * 60 * 1000) hinv

theorem authInv_verifyOtp (db : DB) (now : Nat) (email code : String)
    (hinv : AuthInv db) : AuthInv (verifyOtp db now email code).2 := by
  rcases ho : findOtp db email code OtpType.verification with _ | o
  · have hst : (verifyOtp db now email code).2 = db := by simp [verifyOtp, ho]
    rw [hst]
    exact hinv
  · by_cases hexp : now > o.expiresAt
    · have hst : (verifyOtp db now email code).2 =
          { db with otps := deleteOtpById db.otps o.id } := by
        simp [verifyOtp, ho, hexp]
      rw [hst]
      exact authInv_otps_erase db o.id hinv
    · have hst : (verifyOtp db now email code).2 =
          { db with
            users := updateFirst (fun u => u.email == email)
              (fun u => { u with isVerified := true }) db.users,
            otps := deleteOtpById db.otps o.id } := by
        simp [verifyOtp, ho, hexp]
      rw [hst]
      exact authInv_update_erase db (fun u => u.email == email)
        (fun u => { u with isVerified := true }) (fun x => rfl) o.id hinv

theorem authInv_resetPassword (db : DB) (now : Nat) (email code newPassword : String)
    (hinv : AuthInv db) : AuthInv (resetPassword db now email code newPassword).2 := by
  rcases ho : findOtp db email code OtpType.reset with _ | o
  · have hst : (resetPassword db now email code newPassword).2 = db := by
      simp [resetPassword, ho]
    rw [hst]
    exact hinv
  · have hst : (resetPassword db now email code newPassword).2 =
        { db with
          users := updateFirst (fun u => u.email == email)
            (fun u => { u with password := bcryptHash newPassword }) db.users,
          otps := deleteOtpById db.otps o.id } := by
      simp [resetPassword, ho]
    rw [hst]
    exact authInv_update_erase db (fun u => u.email == email)
      (fun u => { u with password := bcryptHash newPassword }) (fun x => rfl) o.id hinv

theorem authInv_changePassword (db : DB) (session : Option Session)
    (currentPassword newPassword : String) (hinv : AuthInv db) :
    AuthInv (changePassword db session currentPassword newPassword).2 := by
  rcases session with _ | s
  · exact hinv
  · rcases hu : findUserById db s.userId with _ | u
    · have hst : (changePassword db (some s) currentPassword newPassword).2 = db := by
        simp [changePassword, hu]
      rw [hst]
      exact hinv
    · by_cases hc : bcryptCompare currentPassword u.password = true
      · have hst : (changePassword db (some s) currentPassword newPassword).2 =
            { db with
              users := updateFirst (fun v => v.id == s.userId)
                (fun v => { v with password := bcryptHash newPassword }) db.users } := by
          simp [changePassword, hu, hc]
        rw [hst]
        exact authInv_users_update db (fun v => v.id == s.userId)
          (fun v => { v with password := bcryptHash newPassword }) (fun x => rfl) hinv
      · have hst : (changePassword db (some s) currentPassword newPassword).2 = db := by
          simp [changePassword, hu, hc]
        rw [hst]
        exact hinv

theorem authInv_updateProfile (db : DB) (session : Option Session)
    (name bio phoneNumber image : Option String) (hinv : AuthInv db) :
    AuthInv (updateProfile db session name bio phoneNumber image).2 := by
  rcases session with _ | s
  · exact hinv
  · exact authInv_users_update db (fun u => u.id == s.userId)
      (fun u => { u with name := name.getD u.name, bio := bio.getD u.bio,
                         phoneNumber := phoneNumber.getD u.phoneNumber,
                         image := image.getD u.image }) (fun x => rfl) hinv

theorem authInv_updatePreferences (db : DB) (session : Option Session)
    (patch : PreferencesPatch) (hinv : AuthInv db) :
    AuthInv (updatePreferences db session patch).2 := by
  rcases session with _ | s
  · exact hinv
  · have hst : (updatePreferences db (some s) patch).2 =
        { db with
          users := updateFirst (fun u => u.id == s.userId)
            (fun u => { u with preferences := applyPreferencesPatch patch u.preferences })
            db.users } := by
      rcases h : findUserById db s.userId with _ | u <;> simp [updatePreferences, h]
    rw [hst]
    exact authInv_users_update db (fun u => u.id == s.userId)
      (fun u => { u with preferences := applyPreferencesPatch patch u.preferences })
      (fun x => rfl) hinv

theorem authInv_step {db db2 : DB} (hinv : AuthInv db) (hs : Step db db2) :
    AuthInv db2 := by
  cases hs with
  | ofSignup now name email password role =>
    exact authInv_signup db now name email password role hinv
  | ofVerifyOtp now email code => exact authInv_verifyOtp db now email code hinv
  | ofLogin now email password =>
    rw [login_snd db now email password]
    exact hinv
  | ofForgotPassword now email => exact authInv_forgotPassword db now email hinv
  | ofResetPassword now email code newPassword =>
    exact authInv_resetPassword db now email code newPassword hinv
  | ofChangePassword session currentPassword newPassword =>
    exact authInv_changePassword db session currentPassword newPassword hinv
  | ofUpdateProfile session name bio phoneNumber image =>
    exact authInv_updateProfile db session name bio phoneNumber image hinv
  | ofUpdatePreferences session patch =>
    exact authInv_updatePreferences db session patch hinv

theorem authInv_reachable {db : DB} (h : Reachable db) : AuthInv db := by
  induction h with
  | init => exact authInv_init
  | step hr hs ih => exact authInv_step ih hs

/-- Claim C8: in every database state reachable from the fresh deployment
by any sequence of handler calls, each email has at most one active
(unexpired) one-time code per purpose — reset codes are upserted and
signup, the only creator of verification codes, can succeed at most once
per email. -/
theorem claim_C8 (db : DB) (h : Reachable db) (now : Nat) (email : String)
    (t : OtpType) : activeOtpCount db now email t ≤ 1 := by
  have h1 := (authInv_reachable h).1 email t
  rw [otpCount] at h1
  rw [activeOtpCount]
  calc db.otps.countP (fun o => o.email == email && o.type == t && decide (now ≤ o.expiresAt))
      ≤ db.otps.countP (fun o => o.email == email && o.type == t) := by
        refine List.countP_mono_left ?_
        intro a _ ha
        rw [Bool.and_eq_true] at ha
        exact ha.1
    _ ≤ 1 := h1

/-- Witness for claim C8 on a state reached by one signup step. -/
theorem claim_C8_witness :
    activeOtpCount (signup initDB 0 "Alice" "a@x.com" "pw" none).2 0 "a@x.com"
      OtpType.verification ≤ 1 :=
  claim_C8 (signup initDB 0 "Alice" "a@x.com" "pw" none).2
    (Reachable.step Reachable.init (Step.ofSignup initDB 0 "Alice" "a@x.com" "pw" none))
    0 "a@x.com" OtpType.verification
